import Mathlib

/-!
Shallow embedding of the task-management UI client (React source under
src/) for checking the natural-language specification. The Dashboard
component of src/src/pages/Dashboard.jsx is modelled as pure state
transformers over an explicit component state and an explicit world of
browser effects (durable storage, navigation events, issued network
requests); asynchronous fetch results are passed in as explicit
response values.
-/

namespace TaskUI

/-- Browser localStorage modelled as an association list from keys to
string values; the first binding for a key wins, matching getItem. -/
abbrev Storage := List (String × String)

/-- Translation of localStorage.getItem. -/
def storageGet (st : Storage) (k : String) : Option String :=
  (st.find? (fun p => p.1 == k)).map (fun p => p.2)

/-- Translation of localStorage.removeItem. -/
def storageRemove (st : Storage) (k : String) : Storage :=
  st.filter (fun p => p.1 != k)

/-- A task object as the server returns it and as the component keeps it
in the tasks state. The source reads both the completed boolean (the
dashboard counters) and the status string (the badge and the edit form),
so both appear as fields of the record. -/
structure Task where
  id : Nat
  title : String
  description : String
  completed : Bool
  status : String
  deriving Repr, DecidableEq

/-- The JSON body the Dashboard sends on POST and PUT (source lines 114
to 118 and 194 to 198): title, description and the derived completed
boolean. -/
structure TaskPayload where
  title : String
  description : String
  completed : Bool
  deriving Repr, DecidableEq

/-- One outbound network request as issued by fetch inside
fetchWithAuth. -/
structure Request where
  url : String
  method : String
  body : Option TaskPayload
  deriving Repr, DecidableEq

/-- The browser-level effects surrounding the components: durable
storage, the navigation events performed via navigate in order, and the
network requests actually issued in order. -/
structure World where
  storage : Storage
  navEvents : List String
  requests : List Request
  deriving Repr, DecidableEq

/-- What the network hands back for one issued fetch: an HTTP response
with its status code, an optional decoded success body, and an optional
message extracted from a JSON error body; or a transport failure whose
message is the rejection text. Classification of the status code is done
by the model of fetchWithAuth below, as in the source. -/
inductive NetResponse (β : Type) where
  | http (status : Nat) (body : Option β) (errBodyMessage : Option String)
  | transport (message : String)
  deriving Repr, DecidableEq

/-- Outcome of fetchWithAuth as its caller observes it: the missing-token
branch returns undefined without throwing (noToken), a 2xx response
resolves with the decoded body or null (success), and the 401/403 branch
as well as every other error path throws (thrown, carrying the error
message). -/
inductive FetchOutcome (β : Type) where
  | noToken
  | success (body : Option β)
  | thrown (message : String)
  deriving Repr, DecidableEq

/-- Error message of the missing-token branch (source line 28). -/
def noTokenMessage : String := "Authentication token not found. Please login again."

/-- Error message of the 401/403 branch (source line 43). -/
def sessionExpiredMessage : String := "Session expired or invalid. Please login again."

/-- Fallback message of the catch block (source line 72). -/
def genericRequestMessage : String := "An error occurred during the API request."

/-- Translation of response.ok: status in the 2xx range. -/
def statusOk (status : Nat) : Bool :=
  decide (200 ≤ status) && decide (status < 300)

/-- The response-processing part of fetchWithAuth (source lines 40 to
75), reached only when the request was actually issued: 401/403 sets the
session-expired error, removes the token, navigates to login and throws;
another non-2xx status throws with the message taken from the JSON error
body when present, else the HTTP-error fallback, and the catch block
passes that message to setError; a 2xx resolves with its body; a
transport failure throws and the catch block surfaces its message. The
middle component is the message handed to setError, none when setError
is not called on this path. -/
def processResponse {β : Type} (w : World) (resp : NetResponse β) :
    World × Option String × FetchOutcome β :=
  match resp with
  | .http status body errBodyMessage =>
      if status == 401 || status == 403 then
        ({ w with storage := storageRemove w.storage "token",
                  navEvents := w.navEvents ++ ["/login"] },
         some sessionExpiredMessage,
         .thrown "Unauthorized")
      else if !(statusOk status) then
        let msg := errBodyMessage.getD ("HTTP error! Status: " ++ toString status)
        (w, some msg, .thrown msg)
      else
        (w, none, .success body)
  | .transport message =>
      let msg := if message == "" then genericRequestMessage else message
      (w, some msg, .thrown msg)

/-- Translation of fetchWithAuth (source lines 25 to 77). When no token
is stored it sets the missing-token error, navigates to login and
returns undefined without issuing the request; otherwise the request is
issued and the response classified by processResponse. -/
def fetchWithAuth {β : Type} (w : World) (req : Request) (resp : NetResponse β) :
    World × Option String × FetchOutcome β :=
  match storageGet w.storage "token" with
  | none =>
      ({ w with navEvents := w.navEvents ++ ["/login"] }, some noTokenMessage, .noToken)
  | some _ =>
      processResponse { w with requests := w.requests ++ [req] } resp

/-- The state held by the Dashboard component through useState (source
lines 9 to 22). -/
structure DashState where
  tasks : List Task
  isLoading : Bool
  error : Option String
  newTaskTitle : String
  newTaskDescription : String
  newTaskStatus : String
  editingTaskId : Option Nat
  editTaskTitle : String
  editTaskDescription : String
  editTaskStatus : String
  deriving Repr, DecidableEq

/-- The initial Dashboard state from the useState initialisers. -/
def initialDashState : DashState :=
  { tasks := [], isLoading := false, error := none, newTaskTitle := "",
    newTaskDescription := "", newTaskStatus := "PENDING", editingTaskId := none,
    editTaskTitle := "", editTaskDescription := "", editTaskStatus := "" }

/-- Applies the setError call fetchWithAuth may have made on behalf of
the component. -/
def applyError (s : DashState) (e : Option String) : DashState :=
  match e with
  | some m => { s with error := some m }
  | none => s

/-- The API base URL constant (source line 5). -/
def API_BASE_URL : String := "http://localhost:8080"

/-- URL of the task collection endpoint. -/
def tasksUrl : String := API_BASE_URL ++ "/tasks"

/-- URL of a single-task endpoint. -/
def taskUrl (taskId : Nat) : String := API_BASE_URL ++ "/tasks/" ++ toString taskId

/-- The GET request fetchTasks issues. -/
def getTasksRequest : Request := { url := tasksUrl, method := "GET", body := none }

/-- Translation of fetchTasks (source lines 81 to 97): set the loading
flag, clear the error, await fetchWithAuth on GET /tasks; a truthy
payload replaces the whole collection, a null or undefined result sets
it to the empty list; a thrown error leaves the collection as it was;
the finally block clears the loading flag. -/
def fetchTasks (s : DashState) (w : World) (resp : NetResponse (List Task)) :
    DashState × World :=
  let s0 := { s with isLoading := true, error := none }
  let r := fetchWithAuth w getTasksRequest resp
  let s1 := applyError s0 r.2.1
  match r.2.2 with
  | .success (some data) => ({ s1 with tasks := data, isLoading := false }, r.1)
  | .success none => ({ s1 with tasks := [], isLoading := false }, r.1)
  | .noToken => ({ s1 with tasks := [], isLoading := false }, r.1)
  | .thrown _ => ({ s1 with isLoading := false }, r.1)

/-- The POST request handleCreateTask issues, built from the create-form
state (source lines 112 to 118). -/
def createRequest (s : DashState) : Request :=
  { url := tasksUrl, method := "POST",
    body := some { title := s.newTaskTitle, description := s.newTaskDescription,
                   completed := s.newTaskStatus == "COMPLETED" } }

/-- Translation of handleCreateTask (source lines 106 to 139). The
completed flag is the exact comparison of the status choice with the
string COMPLETED; the POST is issued unconditionally; when the awaited
call does not throw the form is reset and the collection re-fetched; a
thrown error ends the handler in its finally block. There is no title
validation in the handler. -/
def handleCreateTask (s : DashState) (w : World)
    (postResp : NetResponse Task) (getResp : NetResponse (List Task)) :
    DashState × World :=
  let s0 := { s with isLoading := true, error := none }
  let r := fetchWithAuth w (createRequest s) postResp
  let s1 := applyError s0 r.2.1
  match r.2.2 with
  | .thrown _ => ({ s1 with isLoading := false }, r.1)
  | _ =>
      let s2 := { s1 with newTaskTitle := "", newTaskDescription := "",
                          newTaskStatus := "PENDING" }
      let p := fetchTasks s2 r.1 getResp
      ({ p.1 with isLoading := false }, p.2)

/-- Translation of handleDeleteTask (source lines 142 to 162): aborts
before any state change when the confirm dialog is declined; otherwise
issues the DELETE and, unless the awaited call threw, re-fetches the
list. -/
def handleDeleteTask (s : DashState) (w : World) (confirmed : Bool) (taskId : Nat)
    (delResp : NetResponse String) (getResp : NetResponse (List Task)) :
    DashState × World :=
  if !confirmed then (s, w)
  else
    let s0 := { s with isLoading := true, error := none }
    let r := fetchWithAuth w { url := taskUrl taskId, method := "DELETE", body := none } delResp
    let s1 := applyError s0 r.2.1
    match r.2.2 with
    | .thrown _ => ({ s1 with isLoading := false }, r.1)
    | _ =>
        let p := fetchTasks s1 r.1 getResp
        ({ p.1 with isLoading := false }, p.2)

/-- Translation of handleStartEdit (source lines 165 to 170): copies the
target task fields into the single edit slot, overwriting whatever draft
was there. -/
def handleStartEdit (s : DashState) (task : Task) : DashState :=
  { s with editingTaskId := some task.id,
           editTaskTitle := task.title,
           editTaskDescription := task.description,
           editTaskStatus := task.status }

/-- Translation of handleCancelEdit (source lines 173 to 175). -/
def handleCancelEdit (s : DashState) : DashState :=
  { s with editingTaskId := none }

/-- The status-choice mapping inside handleUpdateTask (source lines 184
to 192): the exact string COMPLETED maps to true, PENDING maps to false,
and every other value falls through to false. -/
def statusToCompleted (statusChoice : String) : Bool :=
  if statusChoice == "COMPLETED" then true
  else if statusChoice == "PENDING" then false
  else false

/-- The PUT request handleUpdateTask issues for the task under edit,
built from the edit-slot state (source lines 194 to 207). -/
def updateRequest (s : DashState) (tid : Nat) : Request :=
  { url := taskUrl tid, method := "PUT",
    body := some { title := s.editTaskTitle, description := s.editTaskDescription,
                   completed := statusToCompleted s.editTaskStatus } }

/-- Translation of handleUpdateTask (source lines 177 to 215): returns
immediately when no task is under edit; otherwise issues the PUT built
from the edit slot, and unless the awaited call threw, closes the edit
slot and re-fetches the list. There is no title validation in the
handler. -/
def handleUpdateTask (s : DashState) (w : World)
    (putResp : NetResponse Task) (getResp : NetResponse (List Task)) :
    DashState × World :=
  match s.editingTaskId with
  | none => (s, w)
  | some tid =>
      let s0 := { s with isLoading := true, error := none }
      let r := fetchWithAuth w (updateRequest s tid) putResp
      let s1 := applyError s0 r.2.1
      match r.2.2 with
      | .thrown _ => ({ s1 with isLoading := false }, r.1)
      | _ =>
          let s2 := { s1 with editingTaskId := none }
          let p := fetchTasks s2 r.1 getResp
          ({ p.1 with isLoading := false }, p.2)

/-- The status badge text (source line 308) renders the status field of
the task verbatim. -/
def displayedStatus (task : Task) : String := task.status

/-- The badge styling choice (source lines 305 to 307): the green style
exactly when the status string equals COMPLETED, the blue default
otherwise. -/
def statusBadgeGreen (task : Task) : Bool := task.status == "COMPLETED"

/-- The completed counter (source lines 236 to 238), computed from the
completed boolean. -/
def completedCount (tasks : List Task) : Nat :=
  (tasks.filter (fun task => task.completed == true)).length

/-- The pending counter (source lines 242 to 244), computed from the
completed boolean. -/
def pendingCount (tasks : List Task) : Nat :=
  (tasks.filter (fun task => task.completed == false)).length

/-- The disabled attribute of the Add Task submit button (source line
283) is the isLoading flag. -/
def addTaskButtonDisabled (s : DashState) : Bool := s.isLoading

/-- The disabled attribute of the per-task Edit button (source line
312) is the isLoading flag. -/
def editButtonDisabled (s : DashState) : Bool := s.isLoading

/-- The disabled attribute of the per-task Delete button (source line
315) is the isLoading flag. -/
def deleteButtonDisabled (s : DashState) : Bool := s.isLoading

/-- The disabled attribute of the Save Changes button (source line 395)
is the isLoading flag. -/
def saveChangesButtonDisabled (s : DashState) : Bool := s.isLoading

/-- The required attribute on the create-form title input (source line
263). -/
def newTaskTitleRequired : Bool := true

/-- The required attribute on the edit-form title input (source line
358). -/
def editTaskTitleRequired : Bool := true

/-- The Session Controller recomputation updateAuthStatus of the App
component (unnamed source part_000, lines 12 to 15): authenticated
exactly when a token is present in storage. -/
def updateAuthStatus (st : Storage) : Bool := (storageGet st "token").isSome

/-- Translation of handleLogout of the App component (unnamed source
part_000, lines 36 to 40): remove the token key only, recompute the
authenticated flag, navigate to login. -/
def handleLogout (w : World) : World × Bool :=
  let st := storageRemove w.storage "token"
  ({ w with storage := st, navEvents := w.navEvents ++ ["/login"] }, updateAuthStatus st)

/-- The state held by the Login component through useState (unnamed
source part_002, lines 5 to 8). -/
structure LoginState where
  email : String
  password : String
  rememberMe : Bool
  error : Option String
  deriving Repr, DecidableEq

/-- The initial Login state from the useState initialisers. -/
def initialLoginState : LoginState :=
  { email := "", password := "", rememberMe := false, error := none }

/-- Translation of the Login mount effect (unnamed source part_002,
lines 11 to 17): a truthy stored rememberedEmail prefills the email
field and checks the remember-me box; absence or the falsy empty string
leaves the form untouched. -/
def loginMountEffect (st : Storage) (s : LoginState) : LoginState :=
  match storageGet st "rememberedEmail" with
  | some storedEmail =>
      if storedEmail == "" then s
      else { s with email := storedEmail, rememberMe := true }
  | none => s

/-- One successful Task Collection Manager operation together with the
data the server answered it with: the decoded mutation response and the
task list the reconciling GET /tasks returned. For update the modelled
user flow is start-edit on a task followed directly by save. -/
inductive SuccessfulOp where
  | create (created : Task) (serverList : List Task)
  | update (target : Task) (returned : Task) (serverList : List Task)
  | delete (taskId : Nat) (confirmText : String) (serverList : List Task)
  deriving Repr

/-- Runs one successful operation: every network exchange answers with
HTTP 200 and the recorded payloads, and the delete confirm dialog is
accepted. -/
def runOp (p : DashState × World) (op : SuccessfulOp) : DashState × World :=
  match op with
  | .create created serverList =>
      handleCreateTask p.1 p.2 (.http 200 (some created) none)
        (.http 200 (some serverList) none)
  | .update target returned serverList =>
      handleUpdateTask (handleStartEdit p.1 target) p.2 (.http 200 (some returned) none)
        (.http 200 (some serverList) none)
  | .delete taskId confirmText serverList =>
      handleDeleteTask p.1 p.2 true taskId (.http 200 (some confirmText) none)
        (.http 200 (some serverList) none)

/-- Runs a sequence of successful operations in order. -/
def runOps (p : DashState × World) (ops : List SuccessfulOp) : DashState × World :=
  ops.foldl runOp p

/-- The task list the reconciling GET of an operation returned. -/
def opServerList : SuccessfulOp → List Task
  | .create _ serverList => serverList
  | .update _ _ serverList => serverList
  | .delete _ _ serverList => serverList

/-- Whether a response makes the awaited fetchWithAuth call throw: any
non-2xx status or a transport failure. -/
def respThrows {β : Type} : NetResponse β → Bool
  | .http status _ _ => !(statusOk status)
  | .transport _ => true

/-- A sample task shared by concrete evaluations. -/
def sampleTask : Task :=
  { id := 1, title := "X", description := "", completed := false, status := "PENDING" }

/-- A world holding a stored token and no prior events. -/
def tokenWorld : World :=
  { storage := [("token", "tok")], navEvents := [], requests := [] }

/-- A world with empty storage and no prior events. -/
def emptyWorld : World :=
  { storage := [], navEvents := [], requests := [] }

/-- A world holding a token and a remembered email. -/
def logoutWorld : World :=
  { storage := [("token", "tok"), ("rememberedEmail", "user@example.com")],
    navEvents := [], requests := [] }

/-- A Dashboard state in which an operation is in flight. -/
def busyState : DashState :=
  { initialDashState with isLoading := true, newTaskTitle := "T" }

/-- A Dashboard state in which an operation is in flight while a task
is also under edit. -/
def busyEditState : DashState :=
  { busyState with editingTaskId := some 1, editTaskTitle := "T2" }

/-- A Dashboard state holding one task in the collection. -/
def oneTaskState : DashState :=
  { initialDashState with tasks := [sampleTask] }

/-- A task whose completed flag and status string disagree. -/
def mismatchedTask : Task :=
  { id := 1, title := "X", description := "", completed := true, status := "PENDING" }

/-- A task carrying a status string outside PENDING and COMPLETED. -/
def strangeTask : Task :=
  { id := 2, title := "Y", description := "", completed := false, status := "ARCHIVED" }

/-! Helper lemmas shared by the claim theorems. -/

/-- Looking up a key just removed from storage yields nothing. -/
theorem storageGet_remove_self (st : Storage) (k : String) :
    storageGet (storageRemove st k) k = none := by
  have hfind : List.find? (fun p => p.1 == k) (List.filter (fun p => p.1 != k) st)
      = none := by
    rw [List.find?_eq_none]
    intro p hp
    have h2 := (List.mem_filter.mp hp).2
    simp only [bne_iff_ne, ne_eq] at h2
    simp [h2]
  simp [storageGet, storageRemove, hfind]

/-- Removing one key from storage leaves every other key unchanged. -/
theorem storageGet_remove_other (st : Storage) (k k2 : String) (h : k2 ≠ k) :
    storageGet (storageRemove st k) k2 = storageGet st k2 := by
  induction st with
  | nil => rfl
  | cons p rest ih =>
      simp only [storageGet, storageRemove] at ih ⊢
      by_cases hk : p.1 = k
      · have h1 : ¬ ((p.1 != k) = true) := by simp [hk]
        have h2 : ¬ ((p.1 == k2) = true) := by
          simp only [beq_iff_eq, hk]
          exact fun e => h e.symm
        rw [List.filter_cons, if_neg h1,
          @List.find?_cons_of_neg _ (fun q => q.1 == k2) p rest h2]
        exact ih
      · have h1 : (p.1 != k) = true := by simp [hk]
        by_cases hk2 : p.1 = k2
        · have h2 : (p.1 == k2) = true := by simp [hk2]
          rw [List.filter_cons, if_pos h1,
            @List.find?_cons_of_pos _ (fun q => q.1 == k2) p
              (List.filter (fun q => q.1 != k) rest) h2,
            @List.find?_cons_of_pos _ (fun q => q.1 == k2) p rest h2]
        · have h2 : ¬ ((p.1 == k2) = true) := by simp [hk2]
          rw [List.filter_cons, if_pos h1,
            @List.find?_cons_of_neg _ (fun q => q.1 == k2) p
              (List.filter (fun q => q.1 != k) rest) h2,
            @List.find?_cons_of_neg _ (fun q => q.1 == k2) p rest h2]
          exact ih

/-- A 200 response with no error body classifies as plain success. -/
theorem processResponse_http200 {β : Type} (w : World) (body : Option β) :
    processResponse w (.http 200 body none) = (w, none, .success body) := rfl

/-- Evaluation of fetchTasks on a 200 response when a token is stored:
the collection is replaced wholesale by the returned list, the error is
cleared, the loading flag ends false and exactly the GET request was
issued. -/
theorem fetchTasks_ok (s : DashState) (w : World) (tok : String) (data : List Task)
    (h : storageGet w.storage "token" = some tok) :
    fetchTasks s w (.http 200 (some data) none)
      = ({ s with tasks := data, isLoading := false, error := none },
         { w with requests := w.requests ++ [getTasksRequest] }) := by
  simp [fetchTasks, fetchWithAuth, h, processResponse_http200, applyError]

/-- Evaluation of handleCreateTask on 200 responses when a token is
stored: the form is reset, the collection is replaced by the list the
reconciling GET returned, and the POST and GET requests were issued in
order. -/
theorem handleCreateTask_ok (s : DashState) (w : World) (tok : String)
    (created : Task) (serverList : List Task)
    (h : storageGet w.storage "token" = some tok) :
    handleCreateTask s w (.http 200 (some created) none) (.http 200 (some serverList) none)
      = ({ s with
            tasks := serverList, isLoading := false, error := none,
            newTaskTitle := "", newTaskDescription := "", newTaskStatus := "PENDING" },
         { w with requests := w.requests ++ [createRequest s, getTasksRequest] }) := by
  simp [handleCreateTask, fetchWithAuth, h, processResponse_http200, applyError,
    fetchTasks]

/-- Evaluation of handleDeleteTask on 200 responses, confirmed, when a
token is stored. -/
theorem handleDeleteTask_ok (s : DashState) (w : World) (tok : String)
    (taskId : Nat) (confirmText : String) (serverList : List Task)
    (h : storageGet w.storage "token" = some tok) :
    handleDeleteTask s w true taskId (.http 200 (some confirmText) none)
        (.http 200 (some serverList) none)
      = ({ s with tasks := serverList, isLoading := false, error := none },
         { w with requests := w.requests
             ++ [{ url := taskUrl taskId, method := "DELETE", body := none },
                 getTasksRequest] }) := by
  simp [handleDeleteTask, fetchWithAuth, h, processResponse_http200, applyError,
    fetchTasks]

/-- Evaluation of handleUpdateTask on 200 responses when a token is
stored and a task is under edit: the edit slot closes, the collection is
replaced by the list the reconciling GET returned, and the PUT and GET
requests were issued in order. -/
theorem handleUpdateTask_ok (s : DashState) (w : World) (tok : String) (tid : Nat)
    (returned : Task) (serverList : List Task)
    (he : s.editingTaskId = some tid)
    (h : storageGet w.storage "token" = some tok) :
    handleUpdateTask s w (.http 200 (some returned) none) (.http 200 (some serverList) none)
      = ({ s with
            tasks := serverList, isLoading := false, error := none,
            editingTaskId := none },
         { w with requests := w.requests ++ [updateRequest s tid, getTasksRequest] }) := by
  simp [handleUpdateTask, he, fetchWithAuth, h, processResponse_http200, applyError,
    fetchTasks]

/-- A successful operation leaves storage unchanged and ends with the
task collection equal to the list its reconciling GET returned. -/
theorem runOp_ok (s : DashState) (w : World) (tok : String) (op : SuccessfulOp)
    (h : storageGet w.storage "token" = some tok) :
    (runOp (s, w) op).1.tasks = opServerList op ∧
    (runOp (s, w) op).2.storage = w.storage := by
  cases op with
  | create created serverList =>
      rw [runOp, handleCreateTask_ok s w tok created serverList h]
      exact ⟨rfl, rfl⟩
  | update target returned serverList =>
      rw [runOp, handleUpdateTask_ok (handleStartEdit s target) w tok target.id
        returned serverList rfl h]
      exact ⟨rfl, rfl⟩
  | delete taskId confirmText serverList =>
      rw [runOp, handleDeleteTask_ok s w tok taskId confirmText serverList h]
      exact ⟨rfl, rfl⟩

/-- Applying a pending setError never changes the task collection. -/
theorem applyError_tasks (s : DashState) (e : Option String) :
    (applyError s e).tasks = s.tasks := by
  cases e <;> rfl

/-- Response processing never records an additional request. -/
theorem processResponse_requests {β : Type} (w : World) (resp : NetResponse β) :
    (processResponse w resp).1.requests = w.requests := by
  cases resp with
  | http status body m =>
      by_cases h401 : (status == 401 || status == 403) = true
      · simp [processResponse, h401]
      · by_cases hok : statusOk status = true
        · simp [processResponse, h401, hok]
        · simp [processResponse, h401, hok]
  | transport m => simp [processResponse]

/-- A response classified as throwing makes the awaited call throw. -/
theorem processResponse_thrown {β : Type} (w : World) (resp : NetResponse β)
    (h : respThrows resp = true) :
    ∃ msg, (processResponse w resp).2.2 = FetchOutcome.thrown msg := by
  cases resp with
  | http status body m =>
      simp only [respThrows] at h
      by_cases h401 : (status == 401 || status == 403) = true
      · exact ⟨"Unauthorized", by simp [processResponse, h401]⟩
      · refine ⟨m.getD ("HTTP error! Status: " ++ toString status), ?_⟩
        simp [processResponse, h401, h]
  | transport m =>
      exact ⟨if m == "" then genericRequestMessage else m, by simp [processResponse]⟩

/-- With a token stored, fetchWithAuth issues exactly its request. -/
theorem fetchWithAuth_issues {β : Type} (w : World) (req : Request)
    (resp : NetResponse β) (tok : String)
    (h : storageGet w.storage "token" = some tok) :
    (fetchWithAuth w req resp).1.requests = w.requests ++ [req] := by
  simp [fetchWithAuth, h, processResponse_requests]

/-- fetchWithAuth only ever appends to the request log. -/
theorem fetchWithAuth_requests_mono {β : Type} (w : World) (req : Request)
    (resp : NetResponse β) :
    ∃ l, (fetchWithAuth w req resp).1.requests = w.requests ++ l := by
  cases hTok : storageGet w.storage "token" with
  | none => exact ⟨[], by simp [fetchWithAuth, hTok]⟩
  | some tok => exact ⟨[req], by simp [fetchWithAuth, hTok, processResponse_requests]⟩

/-- The world fetchTasks ends in is the one its gateway call produced,
whatever the outcome. -/
theorem fetchTasks_world (s : DashState) (w : World) (resp : NetResponse (List Task)) :
    (fetchTasks s w resp).2 = (fetchWithAuth w getTasksRequest resp).1 := by
  rcases h : (fetchWithAuth w getTasksRequest resp).2.2 with _ | body | msg
  · simp [fetchTasks, h]
  · rcases body with _ | data <;> simp [fetchTasks, h]
  · simp [fetchTasks, h]

/-- A throwing load leaves the task collection untouched. -/
theorem fetchTasks_thrown_tasks (s : DashState) (w : World) (tok : String)
    (rl : NetResponse (List Task))
    (hTok : storageGet w.storage "token" = some tok) (hl : respThrows rl = true) :
    (fetchTasks s w rl).1.tasks = s.tasks := by
  obtain ⟨msg, hmsg⟩ := processResponse_thrown
    { w with requests := w.requests ++ [getTasksRequest] } rl hl
  simp [fetchTasks, fetchWithAuth, hTok, hmsg, applyError_tasks]

/-- A throwing create leaves the task collection untouched. -/
theorem handleCreateTask_thrown_tasks (s : DashState) (w : World) (tok : String)
    (rp : NetResponse Task) (g : NetResponse (List Task))
    (hTok : storageGet w.storage "token" = some tok) (hp : respThrows rp = true) :
    (handleCreateTask s w rp g).1.tasks = s.tasks := by
  obtain ⟨msg, hmsg⟩ := processResponse_thrown
    { w with requests := w.requests ++ [createRequest s] } rp hp
  simp [handleCreateTask, fetchWithAuth, hTok, hmsg, applyError_tasks]

/-- A throwing delete leaves the task collection untouched, as does a
declined confirm dialog. -/
theorem handleDeleteTask_thrown_tasks (s : DashState) (w : World) (tok : String)
    (confirmed : Bool) (taskId : Nat) (rd : NetResponse String)
    (g : NetResponse (List Task))
    (hTok : storageGet w.storage "token" = some tok) (hd : respThrows rd = true) :
    (handleDeleteTask s w confirmed taskId rd g).1.tasks = s.tasks := by
  cases confirmed with
  | false => rfl
  | true =>
      obtain ⟨msg, hmsg⟩ := processResponse_thrown
        { w with requests := w.requests
            ++ [{ url := taskUrl taskId, method := "DELETE", body := none }] } rd hd
      simp [handleDeleteTask, fetchWithAuth, hTok, hmsg, applyError_tasks]

/-- A throwing update leaves the task collection untouched, as does an
update with no task under edit. -/
theorem handleUpdateTask_thrown_tasks (s : DashState) (w : World) (tok : String)
    (ru : NetResponse Task) (g : NetResponse (List Task))
    (hTok : storageGet w.storage "token" = some tok) (hu : respThrows ru = true) :
    (handleUpdateTask s w ru g).1.tasks = s.tasks := by
  cases he : s.editingTaskId with
  | none => simp [handleUpdateTask, he]
  | some tid =>
      obtain ⟨msg, hmsg⟩ := processResponse_thrown
        { w with requests := w.requests ++ [updateRequest s tid] } ru hu
      simp [handleUpdateTask, he, fetchWithAuth, hTok, hmsg, applyError_tasks]

/-- With a token stored, handleCreateTask always issues its POST first,
whatever happens afterwards. -/
theorem handleCreateTask_requests (s : DashState) (w : World) (tok : String)
    (rp : NetResponse Task) (g : NetResponse (List Task))
    (hTok : storageGet w.storage "token" = some tok) :
    ∃ l, (handleCreateTask s w rp g).2.requests
      = w.requests ++ createRequest s :: l := by
  have hreq : (fetchWithAuth w (createRequest s) rp).1.requests
      = w.requests ++ [createRequest s] := fetchWithAuth_issues w _ rp tok hTok
  rcases hout : (fetchWithAuth w (createRequest s) rp).2.2 with _ | body | msg
  · obtain ⟨l2, hl2⟩ := fetchWithAuth_requests_mono
      (fetchWithAuth w (createRequest s) rp).1 getTasksRequest g
    refine ⟨l2, ?_⟩
    simp [handleCreateTask, hout, fetchTasks_world, hl2, hreq]
  · obtain ⟨l2, hl2⟩ := fetchWithAuth_requests_mono
      (fetchWithAuth w (createRequest s) rp).1 getTasksRequest g
    refine ⟨l2, ?_⟩
    simp [handleCreateTask, hout, fetchTasks_world, hl2, hreq]
  · exact ⟨[], by simp [handleCreateTask, hout, hreq]⟩

/-- With a token stored and a task under edit, handleUpdateTask always
issues its PUT first, whatever happens afterwards. -/
theorem handleUpdateTask_requests (s : DashState) (w : World) (tok : String)
    (tid : Nat) (ru : NetResponse Task) (g : NetResponse (List Task))
    (he : s.editingTaskId = some tid)
    (hTok : storageGet w.storage "token" = some tok) :
    ∃ l, (handleUpdateTask s w ru g).2.requests
      = w.requests ++ updateRequest s tid :: l := by
  have hreq : (fetchWithAuth w (updateRequest s tid) ru).1.requests
      = w.requests ++ [updateRequest s tid] := fetchWithAuth_issues w _ ru tok hTok
  rcases hout : (fetchWithAuth w (updateRequest s tid) ru).2.2 with _ | body | msg
  · obtain ⟨l2, hl2⟩ := fetchWithAuth_requests_mono
      (fetchWithAuth w (updateRequest s tid) ru).1 getTasksRequest g
    refine ⟨l2, ?_⟩
    simp [handleUpdateTask, he, hout, fetchTasks_world, hl2, hreq]
  · obtain ⟨l2, hl2⟩ := fetchWithAuth_requests_mono
      (fetchWithAuth w (updateRequest s tid) ru).1 getTasksRequest g
    refine ⟨l2, ?_⟩
    simp [handleUpdateTask, he, hout, fetchTasks_world, hl2, hreq]
  · exact ⟨[], by simp [handleUpdateTask, he, hout, hreq]⟩

/-- With a token stored and the confirm dialog accepted,
handleDeleteTask always issues its DELETE first, whatever happens
afterwards. -/
theorem handleDeleteTask_requests (s : DashState) (w : World) (tok : String)
    (taskId : Nat) (rd : NetResponse String) (g : NetResponse (List Task))
    (hTok : storageGet w.storage "token" = some tok) :
    ∃ l, (handleDeleteTask s w true taskId rd g).2.requests
      = w.requests ++ (⟨taskUrl taskId, "DELETE", none⟩ : Request) :: l := by
  have hreq : (fetchWithAuth w (⟨taskUrl taskId, "DELETE", none⟩ : Request) rd).1.requests
      = w.requests ++ [(⟨taskUrl taskId, "DELETE", none⟩ : Request)] :=
    fetchWithAuth_issues w _ rd tok hTok
  rcases hout : (fetchWithAuth w (⟨taskUrl taskId, "DELETE", none⟩ : Request) rd).2.2
      with _ | body | msg
  · obtain ⟨l2, hl2⟩ := fetchWithAuth_requests_mono
      (fetchWithAuth w (⟨taskUrl taskId, "DELETE", none⟩ : Request) rd).1 getTasksRequest g
    refine ⟨l2, ?_⟩
    simp [handleDeleteTask, hout, fetchTasks_world, hl2, hreq]
  · obtain ⟨l2, hl2⟩ := fetchWithAuth_requests_mono
      (fetchWithAuth w (⟨taskUrl taskId, "DELETE", none⟩ : Request) rd).1 getTasksRequest g
    refine ⟨l2, ?_⟩
    simp [handleDeleteTask, hout, fetchTasks_world, hl2, hreq]
  · exact ⟨[], by simp [handleDeleteTask, hout, hreq]⟩

/-! Claim theorems. -/

/-- C1: for every sequence of create, update and delete operations that
all succeed, the local task collection held after the reconciling
reload equals exactly the collection most recently returned by the
server on GET /tasks: the list is replaced wholesale, never partially
patched. -/
theorem C1_reconciliation (s : DashState) (w : World) (tok : String)
    (ops : List SuccessfulOp) (op : SuccessfulOp)
    (h : storageGet w.storage "token" = some tok) :
    (runOps (s, w) (ops ++ [op])).1.tasks = opServerList op := by
  induction ops generalizing s w with
  | nil =>
      simp only [runOps, List.nil_append, List.foldl_cons, List.foldl_nil]
      exact (runOp_ok s w tok op h).1
  | cons o rest ih =>
      have hstep := runOp_ok s w tok o h
      have hrw : runOps (s, w) ((o :: rest) ++ [op])
          = runOps (runOp (s, w) o) (rest ++ [op]) := rfl
      rw [hrw]
      have h2 : storageGet (runOp (s, w) o).2.storage "token" = some tok := by
        rw [hstep.2]; exact h
      exact ih (runOp (s, w) o).1 (runOp (s, w) o).2 h2

/-- Witness for C1 at a concrete run: a successful create followed by a
successful delete ends with the collection the final GET returned. -/
theorem C1_reconciliation_witness :
    (runOps (initialDashState, tokenWorld)
        ([SuccessfulOp.create sampleTask [sampleTask]]
          ++ [SuccessfulOp.delete 1 "Task deleted" []])).1.tasks = [] :=
  C1_reconciliation initialDashState tokenWorld "tok"
    [SuccessfulOp.create sampleTask [sampleTask]]
    (SuccessfulOp.delete 1 "Task deleted" []) rfl

/-- C2 counterexample: with a token stored and two requests in flight,
processing two 401 responses runs the clear-and-navigate transition
once per response, so navigation to the login view does not occur
exactly once: it occurs twice. -/
theorem C2_counterexample :
    ((@processResponse Unit
        (@processResponse Unit tokenWorld (.http 401 none none)).1
        (.http 401 none none)).1).navEvents = ["/login", "/login"] ∧
    ¬ ((@processResponse Unit
        (@processResponse Unit tokenWorld (.http 401 none none)).1
        (.http 401 none none)).1).navEvents.length = 1 := by
  exact ⟨rfl, by decide⟩

/-- C2 amended: every 401 or 403 response processed by the gateway
clears the credential from storage (idempotently) and leaves the
Session Controller recomputation unauthenticated, but each failing
response performs its own navigation: two concurrent failures navigate
to login twice, not exactly once. -/
theorem C2_perResponseLogout {β : Type} (w : World) (code1 code2 : Nat)
    (h1 : code1 = 401 ∨ code1 = 403) (h2 : code2 = 401 ∨ code2 = 403) :
    storageGet ((@processResponse β
        ((@processResponse β w (.http code1 none none)).1)
        (.http code2 none none)).1).storage "token" = none ∧
    updateAuthStatus ((@processResponse β
        ((@processResponse β w (.http code1 none none)).1)
        (.http code2 none none)).1).storage = false ∧
    ((@processResponse β
        ((@processResponse β w (.http code1 none none)).1)
        (.http code2 none none)).1).navEvents
      = w.navEvents ++ ["/login", "/login"] := by
  rcases h1 with rfl | rfl <;> rcases h2 with rfl | rfl <;>
    refine ⟨?_, ?_, ?_⟩ <;>
      simp [processResponse, storageGet_remove_self, updateAuthStatus]

/-- Witness for C2 amended at a concrete world and the two concerned
status codes. -/
theorem C2_perResponseLogout_witness :
    storageGet ((@processResponse Unit
        ((@processResponse Unit tokenWorld (.http 401 none none)).1)
        (.http 403 none none)).1).storage "token" = none ∧
    updateAuthStatus ((@processResponse Unit
        ((@processResponse Unit tokenWorld (.http 401 none none)).1)
        (.http 403 none none)).1).storage = false ∧
    ((@processResponse Unit
        ((@processResponse Unit tokenWorld (.http 401 none none)).1)
        (.http 403 none none)).1).navEvents
      = tokenWorld.navEvents ++ ["/login", "/login"] :=
  @C2_perResponseLogout Unit tokenWorld 401 403 (Or.inl rfl) (Or.inr rfl)

/-- C3 counterexample: a load failing with the no-credential failure
does not leave the last-known-good collection untouched: fetchWithAuth
returns undefined instead of throwing and fetchTasks replaces the
nonempty collection with the empty list. -/
theorem C3_counterexample :
    oneTaskState.tasks = [sampleTask] ∧
    (fetchTasks oneTaskState emptyWorld (.http 200 (some [sampleTask]) none)).1.tasks
      = [] ∧
    (fetchTasks oneTaskState emptyWorld
        (.http 200 (some [sampleTask]) none)).2.requests = [] := by
  exact ⟨rfl, rfl, rfl⟩

/-- C3 amended: for the gateway failures that raise an exception, that
is Unauthorized, Server and Transport, each of the four operations
aborts and leaves the task collection untouched when a credential is
stored; the NoCredential failure is excluded, because its branch
returns undefined instead of raising, after which a load empties the
collection. -/
theorem C3_abortKeepsCollection (s : DashState) (w : World) (tok : String)
    (rl g : NetResponse (List Task)) (rp ru : NetResponse Task)
    (rd : NetResponse String) (confirmed : Bool) (taskId : Nat)
    (hTok : storageGet w.storage "token" = some tok)
    (hl : respThrows rl = true) (hp : respThrows rp = true)
    (hd : respThrows rd = true) (hu : respThrows ru = true) :
    (fetchTasks s w rl).1.tasks = s.tasks ∧
    (handleCreateTask s w rp g).1.tasks = s.tasks ∧
    (handleDeleteTask s w confirmed taskId rd g).1.tasks = s.tasks ∧
    (handleUpdateTask s w ru g).1.tasks = s.tasks :=
  ⟨fetchTasks_thrown_tasks s w tok rl hTok hl,
   handleCreateTask_thrown_tasks s w tok rp g hTok hp,
   handleDeleteTask_thrown_tasks s w tok confirmed taskId rd g hTok hd,
   handleUpdateTask_thrown_tasks s w tok ru g hTok hu⟩

/-- Witness for C3 amended at concrete throwing responses: a 500 load,
a transport-failed create, a 401 delete and a 503 update all leave the
one-task collection untouched. -/
theorem C3_abortKeepsCollection_witness :
    (fetchTasks oneTaskState tokenWorld (.http 500 none none)).1.tasks
      = oneTaskState.tasks ∧
    (handleCreateTask oneTaskState tokenWorld (.transport "boom")
        (.http 200 (some []) none)).1.tasks = oneTaskState.tasks ∧
    (handleDeleteTask oneTaskState tokenWorld true 1 (.http 401 none none)
        (.http 200 (some []) none)).1.tasks = oneTaskState.tasks ∧
    (handleUpdateTask oneTaskState tokenWorld (.http 503 none none)
        (.http 200 (some []) none)).1.tasks = oneTaskState.tasks :=
  C3_abortKeepsCollection oneTaskState tokenWorld "tok"
    (.http 500 none none) (.http 200 (some []) none) (.transport "boom")
    (.http 503 none none) (.http 401 none none) true 1 rfl rfl rfl rfl rfl

/-- C4 counterexample: handleCreateTask invoked with the empty title
raises no local validation error and does issue network requests: the
POST carrying the empty title, then the reconciling GET. -/
theorem C4_counterexample :
    initialDashState.newTaskTitle = "" ∧
    (handleCreateTask initialDashState tokenWorld
        (.http 200 (some sampleTask) none)
        (.http 200 (some [sampleTask]) none)).2.requests
      = [⟨tasksUrl, "POST", some ⟨"", "", false⟩⟩, getTasksRequest] := by
  exact ⟨rfl, rfl⟩

/-- C4 amended: the create and update handlers contain no title
validation and raise no local validation error: invoked with an empty
title while a credential is stored, each one issues its network request
with the empty title in the body; empty titles are prevented only by
the required attribute carried by the two title form inputs. -/
theorem C4_noLocalValidation (s : DashState) (w : World) (tok : String) (tid : Nat)
    (rp ru : NetResponse Task) (g : NetResponse (List Task))
    (hTok : storageGet w.storage "token" = some tok)
    (hct : s.newTaskTitle = "") (he : s.editingTaskId = some tid)
    (het : s.editTaskTitle = "") :
    (∃ l, (handleCreateTask s w rp g).2.requests = w.requests
        ++ ⟨tasksUrl, "POST",
              some ⟨"", s.newTaskDescription, s.newTaskStatus == "COMPLETED"⟩⟩ :: l) ∧
    (∃ l, (handleUpdateTask s w ru g).2.requests = w.requests
        ++ ⟨taskUrl tid, "PUT",
              some ⟨"", s.editTaskDescription,
                    statusToCompleted s.editTaskStatus⟩⟩ :: l) ∧
    newTaskTitleRequired = true ∧ editTaskTitleRequired = true := by
  refine ⟨?_, ?_, rfl, rfl⟩
  · have h := handleCreateTask_requests s w tok rp g hTok
    simp only [createRequest, hct] at h
    exact h
  · have h := handleUpdateTask_requests s w tok tid ru g he hTok
    simp only [updateRequest, het] at h
    exact h

/-- Witness for C4 amended at a concrete state with empty titles in
both forms and a task under edit. -/
theorem C4_noLocalValidation_witness :
    (∃ l, (handleCreateTask { initialDashState with editingTaskId := some 1 }
        tokenWorld (.http 200 (some sampleTask) none)
        (.http 200 (some [sampleTask]) none)).2.requests
      = tokenWorld.requests ++ ⟨tasksUrl, "POST", some ⟨"", "", false⟩⟩ :: l) ∧
    (∃ l, (handleUpdateTask { initialDashState with editingTaskId := some 1 }
        tokenWorld (.http 200 (some sampleTask) none)
        (.http 200 (some [sampleTask]) none)).2.requests
      = tokenWorld.requests ++ ⟨taskUrl 1, "PUT", some ⟨"", "", false⟩⟩ :: l) ∧
    newTaskTitleRequired = true ∧ editTaskTitleRequired = true :=
  C4_noLocalValidation { initialDashState with editingTaskId := some 1 }
    tokenWorld "tok" 1 (.http 200 (some sampleTask) none)
    (.http 200 (some sampleTask) none) (.http 200 (some [sampleTask]) none)
    rfl rfl rfl rfl

/-- C5 counterexample: the displayed status is not derived from the
completion flag: a task with completed true and status PENDING renders
as PENDING, and a third status string such as ARCHIVED is displayed
verbatim. -/
theorem C5_counterexample :
    mismatchedTask.completed = true ∧
    displayedStatus mismatchedTask = "PENDING" ∧
    strangeTask.completed = false ∧
    displayedStatus strangeTask = "ARCHIVED" := ⟨rfl, rfl, rfl, rfl⟩

/-- C5 amended: the badge renders the status string field of the task
verbatim, colouring it green exactly on the string COMPLETED, while the
completed and pending counters use the completed boolean; the two
fields vary independently: every combination of completed flag and
displayed status string is realizable in the render. -/
theorem C5_statusIndependent (b : Bool) (str : String) :
    ∃ task : Task, task.completed = b ∧ displayedStatus task = str ∧
      statusBadgeGreen task = (str == "COMPLETED") ∧
      completedCount [task] = (if b then 1 else 0) ∧
      pendingCount [task] = (if b then 0 else 1) := by
  refine ⟨{ id := 0, title := "", description := "", completed := b, status := str },
    rfl, rfl, rfl, ?_, ?_⟩ <;> cases b <;> simp [completedCount, pendingCount]

/-- C6 counterexample: with the busy flag set, invoking the create
handler is not rejected locally: the POST and the reconciling GET are
still issued. -/
theorem C6_counterexample :
    busyState.isLoading = true ∧
    (handleCreateTask busyState tokenWorld (.http 200 (some sampleTask) none)
        (.http 200 (some [sampleTask]) none)).2.requests
      = [⟨tasksUrl, "POST", some ⟨"T", "", false⟩⟩, getTasksRequest] := by
  exact ⟨rfl, rfl⟩

/-- C6 amended: the operation handlers contain no busy-flag check:
invoked while isLoading is true with a credential stored, create still
issues its POST, update with a task under edit still issues its PUT,
and delete once confirmed still issues its DELETE; overlap is prevented
only at the markup level, where the add-task, edit, delete and save
buttons all carry a disabled attribute equal to the isLoading flag. -/
theorem C6_busyNotChecked (s : DashState) (w : World) (tok : String)
    (tid taskId : Nat) (rp ru : NetResponse Task) (rd : NetResponse String)
    (g : NetResponse (List Task))
    (hBusy : s.isLoading = true)
    (he : s.editingTaskId = some tid)
    (hTok : storageGet w.storage "token" = some tok) :
    (∃ l, (handleCreateTask s w rp g).2.requests
      = w.requests ++ createRequest s :: l) ∧
    (∃ l, (handleUpdateTask s w ru g).2.requests
      = w.requests ++ updateRequest s tid :: l) ∧
    (∃ l, (handleDeleteTask s w true taskId rd g).2.requests
      = w.requests ++ (⟨taskUrl taskId, "DELETE", none⟩ : Request) :: l) ∧
    addTaskButtonDisabled s = true ∧ editButtonDisabled s = true ∧
    deleteButtonDisabled s = true ∧ saveChangesButtonDisabled s = true :=
  ⟨handleCreateTask_requests s w tok rp g hTok,
   handleUpdateTask_requests s w tok tid ru g he hTok,
   handleDeleteTask_requests s w tok taskId rd g hTok,
   hBusy, hBusy, hBusy, hBusy⟩

/-- Witness for C6 amended at a concrete busy state with a task under
edit. -/
theorem C6_busyNotChecked_witness :
    (∃ l, (handleCreateTask busyEditState tokenWorld
        (.http 200 (some sampleTask) none)
        (.http 200 (some [sampleTask]) none)).2.requests
      = tokenWorld.requests ++ createRequest busyEditState :: l) ∧
    (∃ l, (handleUpdateTask busyEditState tokenWorld
        (.http 200 (some sampleTask) none)
        (.http 200 (some [sampleTask]) none)).2.requests
      = tokenWorld.requests ++ updateRequest busyEditState 1 :: l) ∧
    (∃ l, (handleDeleteTask busyEditState tokenWorld true 1
        (.http 200 (some "Task deleted") none)
        (.http 200 (some [sampleTask]) none)).2.requests
      = tokenWorld.requests ++ (⟨taskUrl 1, "DELETE", none⟩ : Request) :: l) ∧
    addTaskButtonDisabled busyEditState = true ∧
    editButtonDisabled busyEditState = true ∧
    deleteButtonDisabled busyEditState = true ∧
    saveChangesButtonDisabled busyEditState = true :=
  C6_busyNotChecked busyEditState tokenWorld "tok" 1 1
    (.http 200 (some sampleTask) none) (.http 200 (some sampleTask) none)
    (.http 200 (some "Task deleted") none) (.http 200 (some [sampleTask]) none)
    rfl rfl rfl

/-- C7: the edit session is single-slot with last-writer-wins: starting
an edit on task A and then on task B before saving leaves exactly the
draft of B in the slot, with no confirmation step; the save then
commits only the draft of B (the PUT goes to the id of B with the
fields of B) and the successful update returns the slot to idle. -/
theorem C7_singleSlotEdit (s : DashState) (w : World) (tok : String)
    (ta tb ret : Task) (serverList : List Task)
    (hTok : storageGet w.storage "token" = some tok) :
    (handleStartEdit (handleStartEdit s ta) tb).editingTaskId = some tb.id ∧
    (handleStartEdit (handleStartEdit s ta) tb).editTaskTitle = tb.title ∧
    (handleStartEdit (handleStartEdit s ta) tb).editTaskDescription
      = tb.description ∧
    (handleStartEdit (handleStartEdit s ta) tb).editTaskStatus = tb.status ∧
    (handleUpdateTask (handleStartEdit (handleStartEdit s ta) tb) w
        (.http 200 (some ret) none) (.http 200 (some serverList) none)).2.requests
      = w.requests ++ [⟨taskUrl tb.id, "PUT",
          some ⟨tb.title, tb.description, statusToCompleted tb.status⟩⟩,
          getTasksRequest] ∧
    (handleUpdateTask (handleStartEdit (handleStartEdit s ta) tb) w
        (.http 200 (some ret) none) (.http 200 (some serverList) none)).1.editingTaskId
      = none := by
  have h := handleUpdateTask_ok (handleStartEdit (handleStartEdit s ta) tb) w tok
    tb.id ret serverList rfl hTok
  refine ⟨rfl, rfl, rfl, rfl, ?_, ?_⟩
  · rw [h]; rfl
  · rw [h]

/-- Witness for C7 at two concrete tasks: after editing the sample task
and then the mismatched task, the save commits the mismatched draft and
idles the slot. -/
theorem C7_singleSlotEdit_witness :
    (handleStartEdit (handleStartEdit initialDashState sampleTask)
        mismatchedTask).editingTaskId = some mismatchedTask.id ∧
    (handleStartEdit (handleStartEdit initialDashState sampleTask)
        mismatchedTask).editTaskTitle = mismatchedTask.title ∧
    (handleStartEdit (handleStartEdit initialDashState sampleTask)
        mismatchedTask).editTaskDescription = mismatchedTask.description ∧
    (handleStartEdit (handleStartEdit initialDashState sampleTask)
        mismatchedTask).editTaskStatus = mismatchedTask.status ∧
    (handleUpdateTask (handleStartEdit (handleStartEdit initialDashState sampleTask)
        mismatchedTask) tokenWorld (.http 200 (some mismatchedTask) none)
        (.http 200 (some [mismatchedTask]) none)).2.requests
      = tokenWorld.requests ++ [⟨taskUrl mismatchedTask.id, "PUT",
          some ⟨mismatchedTask.title, mismatchedTask.description,
                statusToCompleted mismatchedTask.status⟩⟩,
          getTasksRequest] ∧
    (handleUpdateTask (handleStartEdit (handleStartEdit initialDashState sampleTask)
        mismatchedTask) tokenWorld (.http 200 (some mismatchedTask) none)
        (.http 200 (some [mismatchedTask]) none)).1.editingTaskId = none :=
  C7_singleSlotEdit initialDashState tokenWorld "tok" sampleTask mismatchedTask
    mismatchedTask [mismatchedTask] rfl

/-- C8: for every gateway request made with no credential stored, the
gateway short-circuits: it issues no network call, navigates to the
login view, returns the no-token outcome, and the Session Controller
recomputation on the resulting storage is unauthenticated, just as
after an Unauthorized response. -/
theorem C8_noCredentialShortCircuit {β : Type} (w : World) (req : Request)
    (resp : NetResponse β) (h : storageGet w.storage "token" = none) :
    (fetchWithAuth w req resp).1.requests = w.requests ∧
    (fetchWithAuth w req resp).1.navEvents = w.navEvents ++ ["/login"] ∧
    (fetchWithAuth w req resp).2.2 = FetchOutcome.noToken ∧
    updateAuthStatus (fetchWithAuth w req resp).1.storage = false := by
  simp [fetchWithAuth, h, updateAuthStatus]

/-- Witness for C8 at the empty world and a concrete request. -/
theorem C8_noCredentialShortCircuit_witness :
    (@fetchWithAuth Unit emptyWorld getTasksRequest (.http 200 none none)).1.requests
      = emptyWorld.requests ∧
    (@fetchWithAuth Unit emptyWorld getTasksRequest (.http 200 none none)).1.navEvents
      = emptyWorld.navEvents ++ ["/login"] ∧
    (@fetchWithAuth Unit emptyWorld getTasksRequest (.http 200 none none)).2.2
      = FetchOutcome.noToken ∧
    updateAuthStatus (@fetchWithAuth Unit emptyWorld getTasksRequest
        (.http 200 none none)).1.storage = false :=
  @C8_noCredentialShortCircuit Unit emptyWorld getTasksRequest
    (.http 200 none none) rfl

/-- C9: in update, the status choice is mapped to the completed flag by
exact string comparison: exactly the string COMPLETED yields true, and
PENDING as well as every other string silently yields false; malformed
status strings are not rejected: the PUT is still issued carrying the
mapped flag. -/
theorem C9_statusMapping (s : DashState) (w : World) (tok : String) (tid : Nat)
    (choice : String) (ru : NetResponse Task) (g : NetResponse (List Task))
    (he : s.editingTaskId = some tid)
    (hTok : storageGet w.storage "token" = some tok) :
    (statusToCompleted choice = true ↔ choice = "COMPLETED") ∧
    (∃ l, (handleUpdateTask s w ru g).2.requests = w.requests
        ++ ⟨taskUrl tid, "PUT", some ⟨s.editTaskTitle, s.editTaskDescription,
              statusToCompleted s.editTaskStatus⟩⟩ :: l) := by
  constructor
  · by_cases hc : choice = "COMPLETED" <;> simp [statusToCompleted, hc]
  · have h := handleUpdateTask_requests s w tok tid ru g he hTok
    simp only [updateRequest] at h
    exact h

/-- Witness for C9 at a concrete state carrying a malformed status
choice in the edit slot. -/
theorem C9_statusMapping_witness :
    (statusToCompleted "DONE" = true ↔ "DONE" = "COMPLETED") ∧
    (∃ l, (handleUpdateTask (handleStartEdit initialDashState strangeTask)
        tokenWorld (.http 200 (some strangeTask) none)
        (.http 200 (some [strangeTask]) none)).2.requests
      = tokenWorld.requests ++ ⟨taskUrl 2, "PUT",
          some ⟨strangeTask.title, strangeTask.description,
                statusToCompleted strangeTask.status⟩⟩ :: l) :=
  C9_statusMapping (handleStartEdit initialDashState strangeTask) tokenWorld
    "tok" 2 "DONE" (.http 200 (some strangeTask) none)
    (.http 200 (some [strangeTask]) none) rfl rfl

/-- C10: the explicit logout removes only the token key from durable
storage: every other key, in particular rememberedEmail, reads the same
afterwards; the authenticated flag recomputes to false and navigation
goes to login; mounting the login form afterwards still prefills the
remembered email and pre-checks the remember-me box. -/
theorem C10_logoutFrame (w : World) (k e : String)
    (hk : k ≠ "token")
    (he : storageGet w.storage "rememberedEmail" = some e) (hne : ¬ (e = "")) :
    storageGet (handleLogout w).1.storage "token" = none ∧
    (handleLogout w).2 = false ∧
    (handleLogout w).1.navEvents = w.navEvents ++ ["/login"] ∧
    storageGet (handleLogout w).1.storage k = storageGet w.storage k ∧
    (loginMountEffect (handleLogout w).1.storage initialLoginState).email = e ∧
    (loginMountEffect (handleLogout w).1.storage initialLoginState).rememberMe
      = true := by
  have hrm := storageGet_remove_self w.storage "token"
  have hrem : storageGet (storageRemove w.storage "token") "rememberedEmail"
      = some e := by
    rw [storageGet_remove_other _ _ _ (by decide)]
    exact he
  refine ⟨hrm, ?_, rfl, storageGet_remove_other _ _ _ hk, ?_, ?_⟩
  · simp only [handleLogout, updateAuthStatus]
    rw [hrm]
    rfl
  · simp [handleLogout, loginMountEffect, hrem, hne]
  · simp [handleLogout, loginMountEffect, hrem, hne]

/-- Witness for C10 at a concrete world holding a token and a
remembered email. -/
theorem C10_logoutFrame_witness :
    storageGet (handleLogout logoutWorld).1.storage "token" = none ∧
    (handleLogout logoutWorld).2 = false ∧
    (handleLogout logoutWorld).1.navEvents
      = logoutWorld.navEvents ++ ["/login"] ∧
    storageGet (handleLogout logoutWorld).1.storage "rememberedEmail"
      = storageGet logoutWorld.storage "rememberedEmail" ∧
    (loginMountEffect (handleLogout logoutWorld).1.storage
        initialLoginState).email = "user@example.com" ∧
    (loginMountEffect (handleLogout logoutWorld).1.storage
        initialLoginState).rememberMe = true :=
  C10_logoutFrame logoutWorld "rememberedEmail" "user@example.com"
    (by decide) rfl (by decide)

end TaskUI
